import Mathlib

/-!
Shallow embedding of the conversational SQL pipeline
(`backend/agent.py`, `backend/upload_utils.py`) of the Capstone repository.

Python string primitives (`in`, `str.replace`, `str.split(sep, 1)`,
`str.split(sep)[0]`, `str.strip`, `str.lower`, `str.upper`) are modelled
as executable functions over `List Char`; external collaborators (the
database layer, the LLM client, pandas, werkzeug) are passed in as
oracle parameters, so every stage function is total and deterministic
in its oracles.
-/

namespace Capstone

/-- ASCII lower-casing of one character, as Python `str.lower` acts on
the ASCII range (all strings relevant here are ASCII). -/
def lowerChar (c : Char) : Char :=
  if 'A' ≤ c ∧ c ≤ 'Z' then Char.ofNat (c.toNat + 32) else c

/-- ASCII upper-casing of one character, as Python `str.upper` acts on
the ASCII range. -/
def upperChar (c : Char) : Char :=
  if 'a' ≤ c ∧ c ≤ 'z' then Char.ofNat (c.toNat - 32) else c

/-- `leadsWith p s` is true when the list `p` occurs at the very front of
`s` (the boolean matching primitive for all pattern searches below). -/
def leadsWith : List Char → List Char → Bool
  | [], _ => true
  | _ :: _, [] => false
  | p :: ps, c :: cs => p == c && leadsWith ps cs

/-- `containsSubList pat s` is Python `pat in s`: some contiguous run of
`s` equals `pat`. -/
def containsSubList (pat : List Char) : List Char → Bool
  | [] => pat.isEmpty
  | c :: cs => leadsWith pat (c :: cs) || containsSubList pat cs

/-- Python `s.split(sep, 1)` for a non-empty `sep`, returned as
`some (before, after)` at the FIRST occurrence of `sep`, or `none` when
`sep` does not occur (so that `s.split(sep, 1)[1]` is an IndexError). -/
def splitFirstAux (sep : List Char) : List Char → Option (List Char × List Char)
  | [] => none
  | c :: cs =>
    if leadsWith sep (c :: cs) then some ([], (c :: cs).drop sep.length)
    else
      match splitFirstAux sep cs with
      | some (b, a) => some (c :: b, a)
      | none => none

/-- Python `s.split(sep)[0]`: everything before the first occurrence of
`sep`, or all of `s` when `sep` does not occur. -/
def takeBeforeFirst (sep s : List Char) : List Char :=
  match splitFirstAux sep s with
  | some (b, _) => b
  | none => s

/-- Fuelled scan for `replaceAll`: every step consumes at least one
character of the text when `old` is non-empty, so `s.length` fuel always
suffices and the fuel-out branch is unreachable in `replaceAll`. -/
def replaceAllFuel (old new : List Char) : Nat → List Char → List Char
  | _, [] => []
  | 0, s => s
  | fuel + 1, c :: cs =>
    if leadsWith old (c :: cs) then
      new ++ replaceAllFuel old new fuel ((c :: cs).drop old.length)
    else
      c :: replaceAllFuel old new fuel cs

/-- Python `s.replace(old, new)` for a non-empty `old`: every
non-overlapping occurrence of `old`, scanned left to right, is replaced
by `new`. For `old = []` we return `s` (the Python pipeline never calls
`replace` with an empty pattern). -/
def replaceAll (old new s : List Char) : List Char :=
  if old.isEmpty then s else replaceAllFuel old new s.length s

/-- Python whitespace for `str.strip()`. -/
def isPySpace (c : Char) : Bool :=
  c == ' ' || c == '\t' || c == '\n' || c == '\x0d' || c == '\x0b' || c == '\x0c'

/-- Python `s.strip()`. -/
def pyStripList (s : List Char) : List Char :=
  ((s.dropWhile isPySpace).reverse.dropWhile isPySpace).reverse

/- String-level wrappers. -/

/-- Python `pat in s`. -/
def pyContains (s pat : String) : Bool := containsSubList pat.data s.data

/-- Python `s.lower()` (ASCII). -/
def pyLower (s : String) : String := ⟨s.data.map lowerChar⟩

/-- Python `s.upper()` (ASCII). -/
def pyUpper (s : String) : String := ⟨s.data.map upperChar⟩

/-- Python `s.strip()`. -/
def pyStrip (s : String) : String := ⟨pyStripList s.data⟩

/-- Python `s.replace(old, new)`. -/
def pyReplace (s old new : String) : String := ⟨replaceAll old.data new.data s.data⟩

/-- Python `s.split(sep, 1)` as an optional pair (see `splitFirstAux`). -/
def pySplit1 (s sep : String) : Option (String × String) :=
  (splitFirstAux sep.data s.data).map fun p => (⟨p.1⟩, ⟨p.2⟩)

/-- Python `s.split(sep)[0]`. -/
def pyTakeBeforeFirst (s sep : String) : String := ⟨takeBeforeFirst sep.data s.data⟩

/-- Python `s.rstrip(";")`: drop every trailing semicolon. -/
def pyRStripSemi (s : String) : String :=
  ⟨(s.data.reverse.dropWhile (· == ';')).reverse⟩

/-- Python truthiness of an optional string field of the state
(`state.get(k)` is falsy when the key is absent or the value is `""`). -/
def truthy : Option String → Bool
  | none => false
  | some s => !(s == "")

/-!
## The conversation state (`AgentState` TypedDict, agent.py lines 35-44)

`query` is always seeded by the caller; every other field is optional.
An absent TypedDict key is modelled as `none`.
-/

structure AgentState where
  query : String := ""
  table_name : Option String := none
  sql : Option String := none
  result : Option String := none
  answer : Option String := none
  memory : Option String := none
  filters : Option String := none
  last_action : Option String := none
  last_group : Option String := none
deriving Repr, DecidableEq

/-!
## Stage 1: `identify_table_step` (agent.py lines 47-106)

External collaborators are oracles:
* `listTables` — `get_all_table_names()`, which may raise (`.error`);
* `getSchema` — `get_table_schema(t)`, which may raise per table;
* `llm` — the chat-completion call from the selection prompt to the
  stripped-later answer text; `.error` is any exception in the call
  (including a `None` content attribute), which the code catches.
-/

/-- Schema text assembled for the selection prompt (agent.py lines 67-74);
a failing per-table schema fetch is replaced by a placeholder. -/
def schemaTextFor (getSchema : String → Except Unit String) (tables : List String) : String :=
  String.intercalate "\n\n" (tables.map fun t =>
    "Table: " ++ t ++ "\nColumns: " ++
      (match getSchema t with
       | .ok s => s
       | .error _ => "(schema unavailable)"))

/-- The table-selection prompt (agent.py lines 76-85). -/
def mkIdentifyPrompt (getSchema : String → Except Unit String)
    (tables : List String) (query : String) : String :=
  "\nYou are a data expert.\nGiven the user's query and available tables, choose the ONE table that best matches the query.\n\nUser Query: "
    ++ query
    ++ "\nAvailable Tables and Schemas:\n"
    ++ schemaTextFor getSchema tables
    ++ "\n\nReturn only the table name (no explanation). If no table fits, return 'none'.\n"

/-- `identify_table_step` (agent.py lines 47-106). Every failure path of
the Python code is caught there, so the model is a total function. -/
def identify_table_step (listTables : Except Unit (List String))
    (getSchema : String → Except Unit String)
    (llm : String → Except Unit String)
    (state : AgentState) : AgentState :=
  -- reuse previously selected table when present (truthy)
  if truthy state.table_name then state
  else
    match listTables with
    | .error _ => state            -- listing failed: leave table_name unset
    | .ok all_tables =>
      if all_tables.isEmpty then state   -- no tables: leave table_name unset
      else
        match llm (mkIdentifyPrompt getSchema all_tables state.query) with
        | .error _ => state        -- LLM call failed: exception swallowed
        | .ok content =>
          let chosen := pyStrip content
          if pyLower chosen == "none" || !(all_tables.contains chosen) then
            state                  -- invalid or no table: do not set table_name
          else
            { state with table_name := some chosen }

/-!
## Stage 2: `generate_sql_step` (agent.py lines 109-175)

`gemini` is the `generate_sql_gemini(enriched_query, schema, table)`
oracle; its Python contract is "string or None, may raise", modelled as
`Except Unit (Option String)`.

The Python sanity check at lines 165-168 stores the produced SQL on BOTH
of its branches (it only decides what is logged), so the model stores
`sql` unconditionally once a branch produced it.
-/

/-- The exact breakdown SQL text (agent.py lines 142-152, a triple-quoted
f-string: it begins with a newline and ends with `;\n`). -/
def breakdownSql (group_col table filters : String) : String :=
  "\nSELECT " ++ group_col ++
  ",\n       COUNT(*) AS review_count,\n       AVG(reviewrating) AS avg_rating,\n       MIN(reviewrating) AS min_rating,\n       MAX(reviewrating) AS max_rating\nFROM "
  ++ table ++ "\nWHERE " ++ filters ++ "\nGROUP BY " ++ group_col
  ++ "\nORDER BY review_count DESC;\n"

/-- The enriched prompt handed to the SQL synthesizer (agent.py line 157). -/
def enrichedQuery (state : AgentState) : String :=
  "Conversation so far:\n" ++ state.memory.getD "" ++ "\n\nUser Query: "
    ++ state.query ++ "\n"

/-- `generate_sql_step` (agent.py lines 109-175). -/
def generate_sql_step (getSchema : String → Except Unit String)
    (gemini : String → String → String → Except Unit (Option String))
    (state : AgentState) : AgentState :=
  match state.table_name with
  | none => state
  | some table =>
    if table == "" then state          -- `if not table` (falsy)
    else
      match getSchema table with
      | .error _ => state              -- schema fetch failed: no-op
      | .ok schema =>
        let query_text := pyLower state.query
        if pyContains query_text "male" && truthy state.filters then
          -- gender-swap followup pattern (lines 128-132)
          let filters := state.filters.getD ""
          let new_filters := pyReplace (pyReplace filters "Female" "Male") "'female'" "'male'"
          let sql := "SELECT * FROM " ++ table ++ " WHERE " ++ new_filters ++ ";"
          { state with
              filters := some new_filters
              last_action := some "select_records"
              sql := some sql }
        else if pyContains query_text "break down" && truthy state.filters then
          -- breakdown followup pattern (lines 134-154)
          let group_col :=
            if pyContains query_text "userage" then "userage"
            else if pyContains query_text "usergender" then "usergender"
            else state.last_group.getD "usergender"
          let sql := breakdownSql group_col table (state.filters.getD "")
          { state with
              last_action := some "breakdown"
              last_group := some group_col
              sql := some sql }
        else
          -- default path: delegate to the synthesizer (lines 156-162)
          match gemini (enrichedQuery state) schema table with
          | .error _ => state          -- exception caught at line 172
          | .ok out =>
            let sql0 := out.getD ""    -- `generate_sql_gemini(...) or ""`
            let sql :=
              if truthy state.filters && !(pyContains (pyUpper sql0) "WHERE") then
                pyRStripSemi (pyStrip sql0) ++ "\nWHERE " ++ state.filters.getD "" ++ ";"
              else sql0
            { state with sql := some sql }

/-!
## Stage 3: `execute_sql_step` (agent.py lines 178-205)

`run_query` is an oracle with three outcomes: a successful row list
(carried as its `str(rows)` rendering, the only use the stage makes of
it), a `SQLAlchemyError`, or any other exception.
-/

inductive RunQueryOutcome where
  | success (rendered : String)
  | dbError (msg : String)
  | execError (msg : String)
deriving Repr, DecidableEq

/-- `execute_sql_step` (agent.py lines 178-205). The filter capture
(lines 193-196) guards with the case-insensitive test
`"WHERE" in sql.upper()` but splits with the case-sensitive
`sql.split("WHERE", 1)[1]`; when the guard passes and the case-sensitive
split finds nothing, the `[1]` indexing raises
`IndexError: list index out of range`, which the generic handler at
line 201 turns into an `Execution error: ...` result string. -/
def execute_sql_step (run : String → RunQueryOutcome) (state : AgentState) : AgentState :=
  match state.sql with
  | none => state                      -- no SQL to execute
  | some sql =>
    if sql == "" then state            -- `if not sql` (falsy)
    else
      match run sql with
      | .dbError e => { state with result := some ("Database error: " ++ e) }
      | .execError e => { state with result := some ("Execution error: " ++ e) }
      | .success rendered =>
        if pyContains (pyUpper sql) "WHERE" then
          match pySplit1 sql "WHERE" with
          | some (_, after) =>
            let where_clause :=
              pyStrip (pyTakeBeforeFirst (pyTakeBeforeFirst after "GROUP BY") "ORDER BY")
            { state with result := some rendered, filters := some where_clause }
          | none =>
            -- IndexError from `split("WHERE", 1)[1]`, swallowed at line 201:
            -- it overwrites the already-stored str(rows) and leaves filters alone
            { state with result := some ("Execution error: list index out of range") }
        else
          { state with result := some rendered }

/-!
## Ingestion: `upload_new_table` (upload_utils.py lines 117-152)

A parsed file is a `DataFrame` (column names plus rows of opaque cell
texts). Database interaction is made observable as a trace of `DbOp`
values emitted in program order; a run that raises before touching the
database has an empty trace. External collaborators are parameters:
`fileExists` (`Path.exists`), `secureName` (werkzeug's
`secure_filename(path.name)`), `ext` (the lower-cased `Path.suffix`),
`readFile` (the pandas reader, which may raise), and `writeOk` (whether
the chunked `to_sql` writes succeed).
-/

structure DataFrame where
  cols : List String
  rows : List (List String)
deriving Repr, DecidableEq

inductive UploadError where
  | fileNotFound (msg : String)
  | valueError (msg : String)
  | readError
  | runtimeError (msg : String)
deriving Repr, DecidableEq

inductive DbOp where
  | getEngine
  | dropTable (name : String)
  | writeChunk (name : String) (rows : Nat)
deriving Repr, DecidableEq

/-- `_ensure_table_name_safe` (upload_utils.py lines 65-73). Python's
Unicode-aware `str.isalnum` is modelled by `Char.isAlphanum`, adequate
for the ASCII identifiers this pipeline uses. -/
def ensure_table_name_safe (name : String) : Except UploadError String :=
  let n := pyLower (pyStrip name)
  if n == "" then .error (.valueError "Table name must not be empty")
  else if n.data.all (fun c => c.isAlphanum || c == '_') then .ok n
  else .error (.valueError "Table name may only contain letters, numbers and underscores")

/-- `_read_table_from_file` (upload_utils.py lines 30-42): extension
gate, then the pandas reader oracle (whose own exceptions propagate). -/
def read_table_from_file (ext : String) (readFile : Except Unit DataFrame) :
    Except UploadError DataFrame :=
  if !([".csv", ".xlsx", ".xls"].contains ext) then
    .error (.valueError ("Unsupported file type: " ++ ext))
  else
    match readFile with
    | .ok df => .ok df
    | .error _ => .error .readError

/-- Normalized column name (upload_utils.py lines 52-54): strip, lower,
spaces and hyphens to underscores. -/
def normalizeColName (c : String) : String :=
  pyReplace (pyReplace (pyLower (pyStrip c)) " " "_") "-" "_"

/-- `drop_duplicates` keeps the first occurrence of each duplicated row. -/
def dedupKeepFirstAux [BEq α] (seen : List α) : List α → List α
  | [] => []
  | x :: xs =>
    if seen.contains x then dedupKeepFirstAux seen xs
    else x :: dedupKeepFirstAux (x :: seen) xs

/-- `_normalize_dataframe` (upload_utils.py lines 45-62). The NaN-to-None
cell rewrite is invisible at this abstraction (cells are opaque texts). -/
def normalize_dataframe (df : DataFrame) : DataFrame :=
  { cols := df.cols.map normalizeColName
    rows := dedupKeepFirstAux [] df.rows }

/-- Rows split into consecutive chunks of at most `n` (the `while` loop
of `_to_sql_with_chunks`, upload_utils.py lines 100-114). -/
def chunksOf (n : Nat) : List α → List (List α)
  | [] => []
  | x :: xs =>
    if n == 0 then []
    else (x :: xs).take n :: chunksOf n ((x :: xs).drop n)
termination_by l => l.length
decreasing_by
  simp only [List.length_drop, List.length_cons]
  rename_i hn
  have : n ≠ 0 := by simpa using hn
  omega

/-- `_to_sql_with_chunks` (upload_utils.py lines 76-114): drop the prior
table (best effort), refuse an empty frame, then write the chunks; a
failing write raises out of the helper. -/
def to_sql_with_chunks (chunkSize : Nat) (writeOk : Bool)
    (df : DataFrame) (table_name : String) : Except UploadError Unit × List DbOp :=
  let ops0 := [DbOp.dropTable table_name]
  if df.rows.length == 0 then
    (.error (.valueError "Uploaded file contains no rows"), ops0)
  else if writeOk then
    (.ok (), ops0 ++ (chunksOf chunkSize df.rows).map fun c => .writeChunk table_name c.length)
  else
    (.error (.runtimeError "Failed to write chunk to SQL"), ops0)

/-- `upload_new_table` (upload_utils.py lines 117-152). `maxRows` is the
configured `UPLOAD_MAX_ROWS` cap and `chunkSize` the configured
`UPLOAD_CHUNK_SIZE`. The second component is the trace of database
interactions performed before the function returned or raised. -/
def upload_new_table (maxRows chunkSize : Nat) (fileExists : Bool)
    (secureName ext : String) (readFile : Except Unit DataFrame) (writeOk : Bool)
    (file_path table_name : String) : Except UploadError String × List DbOp :=
  if !fileExists then
    (.error (.fileNotFound ("File not found: " ++ file_path)), [])
  else if secureName == "" then
    (.error (.valueError "Invalid filename"), [])      -- `_validate_filename`
  else
    match ensure_table_name_safe table_name with
    | .error e => (.error e, [])
    | .ok tname =>
      match read_table_from_file ext readFile with
      | .error e => (.error e, [])
      | .ok df =>
        -- enforce row limits BEFORE normalization and any database work
        if df.rows.length > maxRows then
          (.error (.valueError ("File too large: " ++ toString df.rows.length
              ++ " rows exceeds max allowed " ++ toString maxRows)), [])
        else
          let df2 := normalize_dataframe df
          if df2.rows.isEmpty || df2.cols.isEmpty then
            (.error (.valueError "No data found after cleaning the uploaded file"), [])
          else
            match to_sql_with_chunks chunkSize writeOk df2 tname with
            | (.ok _, wops) =>
              (.ok ("Uploaded " ++ toString df2.rows.length ++ " rows to table '"
                  ++ tname ++ "' successfully"), DbOp.getEngine :: wops)
            | (.error _, wops) =>
              (.error (.runtimeError ("Failed to upload table '" ++ tname ++ "'")),
                DbOp.getEngine :: wops)

/-!
## Characterizations of the string primitives
-/

theorem leadsWith_iff {p s : List Char} : leadsWith p s = true ↔ ∃ t, s = p ++ t := by
  induction p generalizing s with
  | nil => simp [leadsWith]
  | cons x xs ih =>
    cases s with
    | nil => simp [leadsWith]
    | cons c cs =>
      simp only [leadsWith, Bool.and_eq_true, beq_iff_eq, ih, List.cons_append,
        List.cons.injEq]
      constructor
      · rintro ⟨rfl, t, rfl⟩; exact ⟨t, rfl, rfl⟩
      · rintro ⟨t, rfl, rfl⟩; exact ⟨rfl, t, rfl⟩

theorem containsSubList_iff {pat s : List Char} :
    containsSubList pat s = true ↔ ∃ u v, s = u ++ pat ++ v := by
  induction s with
  | nil =>
    simp only [containsSubList, List.isEmpty_iff]
    constructor
    · rintro rfl; exact ⟨[], [], rfl⟩
    · rintro ⟨u, v, h⟩
      rcases List.append_eq_nil.mp h.symm with ⟨h1, h2⟩
      exact (List.append_eq_nil.mp h1).2
  | cons c cs ih =>
    simp only [containsSubList, Bool.or_eq_true, leadsWith_iff, ih]
    constructor
    · rintro (⟨t, ht⟩ | ⟨u, v, hv⟩)
      · exact ⟨[], t, by simp [ht]⟩
      · exact ⟨c :: u, v, by simp [hv]⟩
    · rintro ⟨u, v, huv⟩
      cases u with
      | nil => exact Or.inl ⟨v, by simpa using huv⟩
      | cons x xs =>
        simp only [List.cons_append, List.cons.injEq] at huv
        exact Or.inr ⟨xs, v, huv.2⟩

/-- A pattern occurring inside another occurring pattern also occurs
(used for: every query containing "female" contains "male"). -/
theorem containsSubList_of_inner {a p b s : List Char}
    (h : containsSubList (a ++ p ++ b) s = true) : containsSubList p s = true := by
  rcases containsSubList_iff.mp h with ⟨u, v, rfl⟩
  exact containsSubList_iff.mpr ⟨u ++ a, b ++ v, by simp⟩

theorem splitFirstAux_none_of_not_contains {pat s : List Char}
    (h : containsSubList pat s = false) : splitFirstAux pat s = none := by
  induction s with
  | nil => rfl
  | cons c cs ih =>
    simp only [containsSubList, Bool.or_eq_false_iff] at h
    simp only [splitFirstAux, ih h.2]
    simp [h.1]

/-- `splitFirstAux` really splits at the first occurrence: if
`s = u ++ pat ++ v` and no occurrence of `pat` starts inside `u`, the
split yields `(u, v)`. -/
theorem splitFirstAux_first {pat : List Char} (hp : pat ≠ []) (u v : List Char)
    (hfirst : ∀ i < u.length, leadsWith pat ((u ++ pat ++ v).drop i) = false) :
    splitFirstAux pat (u ++ pat ++ v) = some (u, v) := by
  induction u with
  | nil =>
    cases pat with
    | nil => exact absurd rfl hp
    | cons p ps =>
      simp only [List.nil_append, List.cons_append]
      rw [splitFirstAux]
      have hlw : leadsWith (p :: ps) (p :: (ps ++ v)) = true :=
        leadsWith_iff.mpr ⟨v, by simp⟩
      simp only [hlw, if_pos]
      have : (p :: (ps ++ v)).drop (p :: ps).length = v := by
        have := List.drop_left (p :: ps) v
        simpa using this
      simp [this]
  | cons c u' ih =>
    have h0 : leadsWith pat (c :: (u' ++ pat ++ v)) = false := by
      have := hfirst 0 (by simp)
      simpa using this
    have hrest : ∀ i < u'.length, leadsWith pat ((u' ++ pat ++ v).drop i) = false := by
      intro i hi
      have := hfirst (i + 1) (by simp; omega)
      simpa [List.drop_succ_cons] using this
    simp only [List.cons_append, splitFirstAux, List.append_eq]
    rw [ih hrest]
    simpa using h0

/-- Any text containing "female" contains "male" (the substring sits at
offset 2), so the plain substring guard of the gender-swap branch also
fires on "female". -/
theorem pyContains_male_of_female {s : String}
    (h : pyContains s "female" = true) : pyContains s "male" = true := by
  have hdec : "female".data = "fe".data ++ "male".data ++ ([] : List Char) := by decide
  unfold pyContains at h ⊢
  rw [hdec] at h
  exact containsSubList_of_inner h

/-!
## Claim theorems
-/

/-- C1: whenever `table_name` is set (non-empty), the schema lookup
succeeds, `filters` is a non-empty string, and the lower-cased query
contains "male", `generate_sql_step` takes the gender-swap branch with
no LLM call (the conclusion holds for EVERY synthesizer oracle
`gemini`): `sql` becomes exactly `SELECT * FROM <table> WHERE <nf>;`
where `<nf>` is the old filters with every "Female" replaced by "Male"
and then every "'female'" by "'male'", `filters` is set to `<nf>`,
`last_action` to "select_records", and nothing else changes. -/
theorem gender_swap_branch_exact (getSchema : String → Except Unit String)
    (gemini : String → String → String → Except Unit (Option String))
    (st : AgentState) (table schema f : String)
    (htab : st.table_name = some table) (htne : table ≠ "")
    (hschema : getSchema table = .ok schema)
    (hfil : st.filters = some f) (hfne : f ≠ "")
    (hmale : pyContains (pyLower st.query) "male" = true) :
    generate_sql_step getSchema gemini st =
      { st with
          filters := some (pyReplace (pyReplace f "Female" "Male") "'female'" "'male'")
          last_action := some "select_records"
          sql := some ("SELECT * FROM " ++ table ++ " WHERE "
            ++ pyReplace (pyReplace f "Female" "Male") "'female'" "'male'" ++ ";") } := by
  have hft : truthy (some f) = true := by simp [truthy, hfne]
  unfold generate_sql_step
  rw [htab]
  simp only [htne, beq_iff_eq, if_neg]
  rw [hschema]
  simp [hmale, hfil, hft]

/-- Witness for C1 (the second turn of the spec's end-to-end scenario:
"show male instead" after `filters = "usergender = 'Female'"`). -/
theorem gender_swap_branch_exact_witness :
    generate_sql_step (fun _ => .ok "cols") (fun _ _ _ => .ok none)
      { query := "show male instead", table_name := some "reviews",
        filters := some "usergender = 'Female'" } =
      { query := "show male instead", table_name := some "reviews",
        filters := some "usergender = 'Male'",
        last_action := some "select_records",
        sql := some "SELECT * FROM reviews WHERE usergender = 'Male';" } := by
  have h := gender_swap_branch_exact (fun _ => .ok "cols") (fun _ _ _ => .ok none)
    { query := "show male instead", table_name := some "reviews",
      filters := some "usergender = 'Female'" }
    "reviews" "cols" "usergender = 'Female'" rfl (by decide) rfl rfl (by decide) (by decide)
  rw [h]
  decide

/-- C9: the gender-swap guard is a plain substring test on the
lower-cased query, and "female" contains "male", so a query mentioning
"female" (with `table_name` set, schema lookup succeeding, and non-empty
`filters`) also takes the gender-swap branch — rewriting Female to Male
in the stored filters and bypassing LLM generation (the result is the
same for every `gemini` oracle) — rather than the default path. -/
theorem female_query_takes_gender_swap (getSchema : String → Except Unit String)
    (gemini : String → String → String → Except Unit (Option String))
    (st : AgentState) (table schema f : String)
    (htab : st.table_name = some table) (htne : table ≠ "")
    (hschema : getSchema table = .ok schema)
    (hfil : st.filters = some f) (hfne : f ≠ "")
    (hfem : pyContains (pyLower st.query) "female" = true) :
    generate_sql_step getSchema gemini st =
      { st with
          filters := some (pyReplace (pyReplace f "Female" "Male") "'female'" "'male'")
          last_action := some "select_records"
          sql := some ("SELECT * FROM " ++ table ++ " WHERE "
            ++ pyReplace (pyReplace f "Female" "Male") "'female'" "'male'" ++ ";") } :=
  gender_swap_branch_exact getSchema gemini st table schema f htab htne hschema
    hfil hfne (pyContains_male_of_female hfem)

/-- Witness for C9: "show female reviewers" fires the swap branch. -/
theorem female_query_takes_gender_swap_witness :
    generate_sql_step (fun _ => .ok "cols") (fun _ _ _ => .ok none)
      { query := "show female reviewers", table_name := some "reviews",
        filters := some "usergender = 'Female'" } =
      { query := "show female reviewers", table_name := some "reviews",
        filters := some "usergender = 'Male'",
        last_action := some "select_records",
        sql := some "SELECT * FROM reviews WHERE usergender = 'Male';" } := by
  have h := female_query_takes_gender_swap (fun _ => .ok "cols") (fun _ _ _ => .ok none)
    { query := "show female reviewers", table_name := some "reviews",
      filters := some "usergender = 'Female'" }
    "reviews" "cols" "usergender = 'Female'" rfl (by decide) rfl rfl (by decide) (by decide)
  rw [h]
  decide

/-- C3: in the breakdown branch with "userage" in the lower-cased query
(query contains "break down", not "male"; non-empty `filters`;
`table_name` set; schema lookup succeeds), the produced SQL is exactly
`breakdownSql "userage" table filters` — the five-column aggregate
select with `WHERE <filters>`, `GROUP BY userage`,
`ORDER BY review_count DESC` — and `last_action` becomes "breakdown",
`last_group` becomes "userage"; no LLM call is made (the conclusion
holds for every `gemini` oracle). -/
theorem breakdown_userage_exact (getSchema : String → Except Unit String)
    (gemini : String → String → String → Except Unit (Option String))
    (st : AgentState) (table schema f : String)
    (htab : st.table_name = some table) (htne : table ≠ "")
    (hschema : getSchema table = .ok schema)
    (hfil : st.filters = some f) (hfne : f ≠ "")
    (hbreak : pyContains (pyLower st.query) "break down" = true)
    (hnmale : pyContains (pyLower st.query) "male" = false)
    (hage : pyContains (pyLower st.query) "userage" = true) :
    generate_sql_step getSchema gemini st =
      { st with
          last_action := some "breakdown"
          last_group := some "userage"
          sql := some (breakdownSql "userage" table f) } := by
  have hft : truthy (some f) = true := by simp [truthy, hfne]
  unfold generate_sql_step
  rw [htab]
  simp only [htne, beq_iff_eq, if_neg]
  rw [hschema]
  simp [hnmale, hbreak, hage, hfil, hft]

/-- Witness for C3 (the spec's "break down by userage" example). -/
theorem breakdown_userage_exact_witness :
    generate_sql_step (fun _ => .ok "cols") (fun _ _ _ => .ok none)
      { query := "break down by userage", table_name := some "reviews",
        filters := some "usergender = 'Male'" } =
      { query := "break down by userage", table_name := some "reviews",
        filters := some "usergender = 'Male'",
        last_action := some "breakdown",
        last_group := some "userage",
        sql := some (breakdownSql "userage" "reviews" "usergender = 'Male'") } := by
  have h := breakdown_userage_exact (fun _ => .ok "cols") (fun _ _ _ => .ok none)
    { query := "break down by userage", table_name := some "reviews",
      filters := some "usergender = 'Male'" }
    "reviews" "cols" "usergender = 'Male'" rfl (by decide) rfl rfl (by decide)
    (by decide) (by decide) (by decide)
  rw [h]

/-- C4 counterexample: the claim says the substring tests run
usergender-first, so a query containing BOTH "usergender" and "userage"
would group by usergender; the code (agent.py lines 135-138) tests
"userage" FIRST, so this concrete in-branch state (query contains
"break down", both column names, and no "male"; filters non-empty;
table set; schema ok) ends with `last_group = some "userage"`, not
`some "usergender"`. -/
theorem breakdown_group_order_cex :
    (generate_sql_step (fun _ => .ok "cols") (fun _ _ _ => .ok none)
        { query := "break down by usergender and userage",
          table_name := some "reviews",
          filters := some "reviewrating > 3" }).last_group = some "userage"
    ∧ some "userage" ≠ some "usergender"
    ∧ pyContains (pyLower "break down by usergender and userage") "usergender" = true
    ∧ pyContains (pyLower "break down by usergender and userage") "userage" = true
    ∧ pyContains (pyLower "break down by usergender and userage") "break down" = true
    ∧ pyContains (pyLower "break down by usergender and userage") "male" = false := by
  refine ⟨by decide, by decide, by decide, by decide, by decide, by decide⟩

/-- C4 (amended): in the breakdown branch the group column is chosen as
`userage` if the lower-cased query contains "userage"; otherwise
`usergender` if it contains "usergender"; otherwise the prior
`last_group`, defaulting to "usergender" when absent — the two substring
tests run in THAT order, so a query containing both column names groups
by userage. -/
theorem breakdown_group_choice (getSchema : String → Except Unit String)
    (gemini : String → String → String → Except Unit (Option String))
    (st : AgentState) (table schema f : String)
    (htab : st.table_name = some table) (htne : table ≠ "")
    (hschema : getSchema table = .ok schema)
    (hfil : st.filters = some f) (hfne : f ≠ "")
    (hbreak : pyContains (pyLower st.query) "break down" = true)
    (hnmale : pyContains (pyLower st.query) "male" = false) :
    (generate_sql_step getSchema gemini st).last_group =
      some (if pyContains (pyLower st.query) "userage" then "userage"
            else if pyContains (pyLower st.query) "usergender" then "usergender"
            else st.last_group.getD "usergender") := by
  have hft : truthy (some f) = true := by simp [truthy, hfne]
  unfold generate_sql_step
  rw [htab]
  simp only [htne, beq_iff_eq, if_neg]
  rw [hschema]
  simp [hnmale, hbreak, hfil, hft]

/-- Witness for the amended C4: both column names present, group column
is userage. -/
theorem breakdown_group_choice_witness :
    (generate_sql_step (fun _ => .ok "cols") (fun _ _ _ => .ok none)
        { query := "break down by usergender and userage",
          table_name := some "reviews",
          filters := some "reviewrating > 3" }).last_group = some "userage" := by
  have h := breakdown_group_choice (fun _ => .ok "cols") (fun _ _ _ => .ok none)
    { query := "break down by usergender and userage",
      table_name := some "reviews", filters := some "reviewrating > 3" }
    "reviews" "cols" "reviewrating > 3" rfl (by decide) rfl rfl (by decide)
    (by decide) (by decide)
  rw [h]
  decide

/-- C5: when the input state already has a non-empty `table_name`,
`identify_table_step` returns the state completely unchanged, for every
table-listing, schema and LLM oracle (so listing, schema fetching and
the LLM call cannot influence the result). -/
theorem identify_table_sticky (listTables : Except Unit (List String))
    (getSchema : String → Except Unit String)
    (llm : String → Except Unit String)
    (st : AgentState) (t : String)
    (htab : st.table_name = some t) (htne : t ≠ "") :
    identify_table_step listTables getSchema llm st = st := by
  have ht : truthy st.table_name = true := by rw [htab]; simp [truthy, htne]
  unfold identify_table_step
  simp [ht]

/-- Witness for C5. -/
theorem identify_table_sticky_witness :
    identify_table_step (.ok ["reviews", "users"]) (fun _ => .ok "cols")
      (fun _ => .ok "users")
      { query := "show all reviews", table_name := some "reviews" } =
      { query := "show all reviews", table_name := some "reviews" } :=
  identify_table_sticky (.ok ["reviews", "users"]) (fun _ => .ok "cols")
    (fun _ => .ok "users")
    { query := "show all reviews", table_name := some "reviews" }
    "reviews" rfl (by decide)

/-- C6: with no `table_name` on input, `identify_table_step` is total
(no exception can propagate) and leaves `table_name` unset in each of
the degradation cases: (1) the listing succeeds and is non-empty but the
model's stripped answer is the literal "none" or is not an exact member
of the listing; (2) the listing call fails; (3) the listing is empty. -/
theorem identify_table_invalid_stays_unset (listTables : Except Unit (List String))
    (getSchema : String → Except Unit String)
    (llm : String → Except Unit String)
    (st : AgentState) (tables : List String) (resp : String)
    (hunset : st.table_name = none) :
    ((listTables = .ok tables → tables ≠ [] →
        llm (mkIdentifyPrompt getSchema tables st.query) = .ok resp →
        (pyStrip resp = "none" ∨ tables.contains (pyStrip resp) = false) →
        identify_table_step listTables getSchema llm st = st)
      ∧ (listTables = .error () →
        identify_table_step listTables getSchema llm st = st)
      ∧ (listTables = .ok [] →
        identify_table_step listTables getSchema llm st = st)) := by
  have ht : truthy st.table_name = false := by rw [hunset]; rfl
  refine ⟨?_, ?_, ?_⟩
  · intro hlt hne hllm hinvalid
    unfold identify_table_step
    rw [hlt]
    rcases hinvalid with hnone | hmem
    · have hlow : (pyLower (pyStrip resp) == "none") = true := by
        rw [hnone]; decide
      simp [ht, hne, hllm, hlow]
    · simp [ht, hne, hllm]
      intro _ h2
      exact absurd h2 (by simpa using hmem)
  · intro hlt
    unfold identify_table_step
    rw [hlt]
    simp [ht]
  · intro hlt
    unfold identify_table_step
    rw [hlt]
    simp [ht]

/-- Witness for C6: both an answer that is the literal "none" and an
answer outside the listing leave the state untouched. -/
theorem identify_table_invalid_stays_unset_witness :
    (identify_table_step (.ok ["reviews"]) (fun _ => .ok "cols")
        (fun _ => .ok "none") { query := "hello" } = { query := "hello" })
    ∧ (identify_table_step (.ok ["reviews"]) (fun _ => .ok "cols")
        (fun _ => .ok "users") { query := "hello" } = { query := "hello" }) :=
  ⟨(identify_table_invalid_stays_unset (.ok ["reviews"]) (fun _ => .ok "cols")
      (fun _ => .ok "none") { query := "hello" } ["reviews"] "none" rfl).1
      rfl (by decide) rfl (Or.inl (by decide)),
   (identify_table_invalid_stays_unset (.ok ["reviews"]) (fun _ => .ok "cols")
      (fun _ => .ok "users") { query := "hello" } ["reviews"] "users" rfl).1
      rfl (by decide) rfl (Or.inr (by decide))⟩

/-- C7: for non-empty `sql`, a failing execution never escapes
`execute_sql_step` (the model is a total function): a database-layer
error yields `result = "Database error: " ++ e` and any other execution
error yields the distinct prefix `"Execution error: " ++ e`; in both
cases the stage returns the state normally with only `result` changed. -/
theorem execute_sql_error_prefixes (run : String → RunQueryOutcome)
    (st : AgentState) (sql : String)
    (hsql : st.sql = some sql) (hne : sql ≠ "") :
    (∀ e, run sql = .dbError e →
      execute_sql_step run st = { st with result := some ("Database error: " ++ e) })
    ∧ (∀ e, run sql = .execError e →
      execute_sql_step run st = { st with result := some ("Execution error: " ++ e) }) := by
  constructor <;>
    · intro e hrun
      unfold execute_sql_step
      rw [hsql]
      simp [hne, hrun]

/-- Witness for C7: one database-layer failure and one generic failure. -/
theorem execute_sql_error_prefixes_witness :
    (execute_sql_step (fun _ => .dbError "connection refused")
        { query := "", sql := some "SELECT 1" } =
      { query := "", sql := some "SELECT 1",
        result := some "Database error: connection refused" })
    ∧ (execute_sql_step (fun _ => .execError "timeout")
        { query := "", sql := some "SELECT 1" } =
      { query := "", sql := some "SELECT 1",
        result := some "Execution error: timeout" }) := by
  constructor
  · have h := (execute_sql_error_prefixes (fun _ => .dbError "connection refused")
        { query := "", sql := some "SELECT 1" } "SELECT 1" rfl (by decide)).1
        "connection refused" rfl
    rw [h]
    decide
  · have h := (execute_sql_error_prefixes (fun _ => .execError "timeout")
        { query := "", sql := some "SELECT 1" } "SELECT 1" rfl (by decide)).2
        "timeout" rfl
    rw [h]
    decide

/-- C10: when `run_query` succeeds but the SQL contains "where" only in
a casing other than the exact uppercase literal "WHERE" (so the
case-insensitive guard passes while the case-sensitive split finds
nothing), the capture raises an index error which the catch-all handler
swallows: `result` — already holding the successful rows — is
overwritten with "Execution error: list index out of range" and
`filters` is left unchanged. -/
theorem where_case_mismatch_swallowed (run : String → RunQueryOutcome)
    (st : AgentState) (sql rendered : String)
    (hsql : st.sql = some sql) (hne : sql ≠ "")
    (hrun : run sql = .success rendered)
    (hupper : pyContains (pyUpper sql) "WHERE" = true)
    (hnocase : pyContains sql "WHERE" = false) :
    execute_sql_step run st =
      { st with result := some "Execution error: list index out of range" } := by
  have hn : containsSubList "WHERE".data sql.data = false := hnocase
  have hsplit : pySplit1 sql "WHERE" = none := by
    unfold pySplit1
    rw [splitFirstAux_none_of_not_contains hn]
    rfl
  unfold execute_sql_step
  rw [hsql]
  simp [hne, hrun, hupper, hsplit]

/-- Witness for C10: a lowercase-WHERE SELECT whose successful rows are
discarded in favor of the swallowed IndexError text. -/
theorem where_case_mismatch_swallowed_witness :
    execute_sql_step (fun _ => .success "[]")
      { query := "", sql := some "select * from t where a = 1" } =
      { query := "", sql := some "select * from t where a = 1",
        result := some "Execution error: list index out of range" } := by
  have h := where_case_mismatch_swallowed (fun _ => .success "[]")
    { query := "", sql := some "select * from t where a = 1" }
    "select * from t where a = 1" "[]" rfl (by decide) rfl (by decide) (by decide)
  rw [h]

/-- C2 counterexample: the claim asserts filter re-derivation for EVERY
successfully executed SQL that contains "WHERE" case-insensitively, but
for `"select * from t where a = 1"` (lowercase `where`), run
successfully, the stage stores no filters at all (the case-sensitive
split fails and the IndexError is swallowed into `result`). -/
theorem filter_capture_cex :
    (execute_sql_step (fun _ => .success "[]")
        { query := "", sql := some "select * from t where a = 1" }).filters = none
    ∧ (execute_sql_step (fun _ => .success "[]")
        { query := "", sql := some "select * from t where a = 1" }).result
        = some "Execution error: list index out of range"
    ∧ pyContains (pyUpper "select * from t where a = 1") "WHERE" = true := by
  refine ⟨by decide, by decide, by decide⟩

/-- C2 (amended): the containment check is case-insensitive but the
split is case-sensitive. For every successfully executed SQL that
contains the exact uppercase literal "WHERE" — written
`sql = u ++ "WHERE" ++ v` with no occurrence of "WHERE" starting inside
`u` — the stage stores the rows and unconditionally overwrites `filters`
with `v` truncated at the first "GROUP BY", then at the first
"ORDER BY", and trimmed. (SQL whose only "where" is in another casing
instead hits the swallowed IndexError of C10.) -/
theorem filter_capture_amended (run : String → RunQueryOutcome)
    (st : AgentState) (sql rendered u v : String)
    (hsql : st.sql = some sql) (hne : sql ≠ "")
    (hrun : run sql = .success rendered)
    (hdec : sql = u ++ "WHERE" ++ v)
    (hfirst : ∀ i < u.data.length, leadsWith "WHERE".data (sql.data.drop i) = false) :
    execute_sql_step run st =
      { st with
          result := some rendered
          filters := some (pyStrip
            (pyTakeBeforeFirst (pyTakeBeforeFirst v "GROUP BY") "ORDER BY")) } := by
  have hdata : sql.data = u.data ++ "WHERE".data ++ v.data := by
    rw [hdec, String.data_append, String.data_append]
  have hW : "WHERE".data.map upperChar = "WHERE".data := by decide
  have hupper : pyContains (pyUpper sql) "WHERE" = true := by
    show containsSubList "WHERE".data (sql.data.map upperChar) = true
    refine containsSubList_iff.mpr ⟨u.data.map upperChar, v.data.map upperChar, ?_⟩
    rw [hdata]
    simp only [List.map_append]
    rw [hW]
  have hsplit : splitFirstAux "WHERE".data sql.data = some (u.data, v.data) := by
    rw [hdata]
    apply splitFirstAux_first (by decide)
    intro i hi
    have h := hfirst i hi
    rwa [hdata] at h
  have hps : pySplit1 sql "WHERE" = some (u, v) := by
    unfold pySplit1
    rw [hsplit]
    rfl
  unfold execute_sql_step
  rw [hsql]
  simp [hne, hrun, hupper, hps]

/-- Witness for the amended C2: the spec's round-trip example — running
`SELECT * FROM t WHERE a = 1 GROUP BY b ORDER BY c` successfully sets
`filters` to exactly "a = 1". -/
theorem filter_capture_amended_witness :
    (execute_sql_step (fun _ => .success "[]")
        { query := "",
          sql := some "SELECT * FROM t WHERE a = 1 GROUP BY b ORDER BY c" }).filters
      = some "a = 1" := by
  have h := filter_capture_amended (fun _ => .success "[]")
    { query := "", sql := some "SELECT * FROM t WHERE a = 1 GROUP BY b ORDER BY c" }
    "SELECT * FROM t WHERE a = 1 GROUP BY b ORDER BY c" "[]"
    "SELECT * FROM t " " a = 1 GROUP BY b ORDER BY c"
    rfl (by decide) rfl (by decide) (by decide)
  rw [h]
  decide

/-- C8: when the parsed row count exceeds the configured cap
(`UPLOAD_MAX_ROWS`), `upload_new_table` raises a `ValueError` before any
database interaction — the database-operation trace is empty, so no
table is dropped, created, replaced, or written to. -/
theorem upload_row_cap (maxRows chunkSize : Nat) (writeOk : Bool)
    (secureName ext file_path table_name tname : String) (df : DataFrame)
    (hsec : secureName ≠ "")
    (hsafe : ensure_table_name_safe table_name = .ok tname)
    (hext : [".csv", ".xlsx", ".xls"].contains ext = true)
    (hrows : df.rows.length > maxRows) :
    upload_new_table maxRows chunkSize true secureName ext (.ok df) writeOk
        file_path table_name =
      (.error (.valueError ("File too large: " ++ toString df.rows.length
          ++ " rows exceeds max allowed " ++ toString maxRows)), []) := by
  unfold upload_new_table read_table_from_file
  rw [hsafe]
  have hmem : ext = ".csv" ∨ ext = ".xlsx" ∨ ext = ".xls" := by simpa using hext
  have hlt : maxRows < df.rows.length := hrows
  rcases hmem with rfl | rfl | rfl <;> simp [hsec, hlt]

/-- Witness for C8: three parsed rows against a cap of two. -/
theorem upload_row_cap_witness :
    upload_new_table 2 50000 true "data.csv" ".csv"
        (.ok { cols := ["a"], rows := [["1"], ["2"], ["3"]] }) true
        "/tmp/data.csv" "mytable" =
      (.error (.valueError "File too large: 3 rows exceeds max allowed 2"), []) := by
  have h := upload_row_cap 2 50000 true "data.csv" ".csv" "/tmp/data.csv" "mytable"
    "mytable" { cols := ["a"], rows := [["1"], ["2"], ["3"]] }
    (by decide) rfl (by decide) (by decide)
  exact h.trans rfl

end Capstone
